import Mathlib

/-!
# Verification of the playwright_mcp session/dispatch core

This file gives a shallow embedding, in Lean 4, of the lifecycle and
dispatch core of the `playwright_mcp` repository:

* `src/playwright_mcp/tools/registry.py` — `ToolRegistry.execute_tool`,
  the single dispatch chokepoint;
* `src/playwright_mcp/context.py` — `BrowserManager` (`start`, `stop`,
  `new_tab`, `close_tab`, `switch_tab`) and its tab bookkeeping;
* `src/playwright_mcp/tools/capture.py` — `CaptureTools._screenshot_pages`,
  the tiled full-page capture loop.

External collaborators (the Playwright engine, pages, the filesystem) are
modelled as explicit parameters: screenshot bytes are produced by a caller
supplied function, engine-call failures are injected through explicit flags,
and object allocation (browser/context/page instances) is modelled by a
fresh-instance counter.  Python exceptions are modelled as `Option String` /
`Except String` values threaded through the state-passing translation.
-/

namespace PlaywrightMcp

/-- One item of a tool result: `mcp.types.TextContent` or
`mcp.types.ImageContent` (base64 data plus mime type). -/
inductive ContentItem where
  | text (text : String)
  | image (data : String) (mimeType : String)
deriving DecidableEq, Repr

/-- `ToolResult` from `tools/base.py`: an ordered content list plus an
error flag (named `is_error` in the source, default `False`). -/
structure ToolResult where
  content : List ContentItem
  isError : Bool := false
deriving DecidableEq, Repr

/-! ## The dispatcher (`ToolRegistry.execute_tool`, registry.py lines 39–61)

A registered tool is a handler from an argument payload to either a
`ToolResult` or a raised exception (`Except.error` carries `str(e)`).
The registry itself is the name-keyed mapping built at construction;
we model the Python `dict` as an association list with unique keys,
looked up with `List.lookup`. -/

/-- A tool handler: Python `tool_info.execute(arguments)`, which either
returns a `ToolResult` or raises (modelled by `Except.error msg`). -/
def Handler (α : Type) : Type := α → Except String ToolResult

/-- `ToolRegistry.execute_tool`: look the name up; if absent return the
"not found" error envelope; otherwise call the handler once and, if it
raises, return the "Error executing ..." envelope.  Total: no exception
value escapes. -/
def execute_tool {α : Type} (tools : List (String × Handler α))
    (tool_name : String) (arguments : α) : ToolResult :=
  match tools.lookup tool_name with
  | none =>
      { content := [ContentItem.text ("Tool '" ++ tool_name ++ "' not found")],
        isError := true }
  | some exec =>
      match exec arguments with
      | Except.ok result => result
      | Except.error e =>
          { content := [ContentItem.text ("Error executing " ++ tool_name ++ ": " ++ e)],
            isError := true }

/-- Instrumented variant of `execute_tool` that additionally counts how many
times the bound handler was invoked (the source has a single call site and
no retry loop; the count makes "invoked exactly once" a provable fact). -/
def execute_tool_traced {α : Type} (tools : List (String × Handler α))
    (tool_name : String) (arguments : α) : ToolResult × Nat :=
  match tools.lookup tool_name with
  | none =>
      ({ content := [ContentItem.text ("Tool '" ++ tool_name ++ "' not found")],
         isError := true }, 0)
  | some exec =>
      (match exec arguments with
       | Except.ok result => result
       | Except.error e =>
           { content := [ContentItem.text ("Error executing " ++ tool_name ++ ": " ++ e)],
             isError := true }, 1)

/-- A registry whose single tool's handler always raises. -/
def demoFailRegistry : List (String × Handler Nat) :=
  [("browser_navigate", fun _ => Except.error "net::ERR_ABORTED")]

/-! ## The session manager (`BrowserManager`, context.py lines 45–162)

State-passing translation of the mutable `BrowserManager` object.  The
Playwright driver, browser and context objects are opaque engine resources;
we model each live resource by the `Nat` instance number it was allocated
with, drawn from a `nextInstance` counter, so that "a fresh launch" is
observable as a changed instance number.  The tab `dict` keeps Python's
insertion order and key-overwrite semantics, so it is modelled by its key
list in insertion order (`Tab` values carry no further state the claims
need).  A raised exception is the `Option String` component of a result. -/

structure BrowserManager where
  browser_type : String := "chromium"
  headless : Bool := true
  viewport_width : Nat := 1280
  viewport_height : Nat := 720
  timeout : Nat := 30000
  playwright : Option Nat := none
  browser : Option Nat := none
  context : Option Nat := none
  tabs : List String := []
  current_tab_id : Option String := none
  nextInstance : Nat := 0
deriving DecidableEq, Repr

/-- `BrowserManager.__init__`: fresh session, nothing launched yet. -/
def BrowserManager.init (browser_type : String) : BrowserManager :=
  { browser_type := browser_type }

/-- Python `self.tabs[tab_id] = tab` on the key list: an existing key keeps
its position (its value is overwritten), a new key is appended. -/
def dictInsertKey (keys : List String) (k : String) : List String :=
  if k ∈ keys then keys else keys ++ [k]

/-- `BrowserManager.start` (context.py 68–88).  The driver is started only
if absent; the branch on `browser_type` then launches a browser — on every
call — and creates a fresh context, or raises
`ValueError("Unsupported browser type: ...")` for an unknown engine
(leaving the possibly just-started driver in place). -/
def BrowserManager.start (m : BrowserManager) : BrowserManager × Option String :=
  let m0 := if m.playwright = none then
      { m with playwright := some m.nextInstance, nextInstance := m.nextInstance + 1 }
    else m
  if m0.browser_type = "chromium" ∨ m0.browser_type = "firefox" ∨
      m0.browser_type = "webkit" then
    let m1 := { m0 with browser := some m0.nextInstance,
                        nextInstance := m0.nextInstance + 1 }
    let m2 := { m1 with context := some m1.nextInstance,
                        nextInstance := m1.nextInstance + 1 }
    (m2, none)
  else
    (m0, some ("Unsupported browser type: " ++ m0.browser_type))

/-- Which teardown steps fail when `stop` runs; each flag injects a raised
exception into the corresponding external `close()`/`stop()` engine call. -/
structure StopFailures where
  contextFails : Bool := false
  browserFails : Bool := false
  playwrightFails : Bool := false
deriving DecidableEq, Repr

/-- `BrowserManager.stop` (context.py 90–103): close context, then browser,
then driver, then reset every field.  The source has no exception handling
around the three awaits, so a failing step propagates immediately: later
steps do not run and the bookkeeping is not cleared. -/
def BrowserManager.stop (m : BrowserManager) (f : StopFailures) :
    BrowserManager × Option String :=
  if m.context.isSome ∧ f.contextFails then
    (m, some "context close failed")
  else if m.browser.isSome ∧ f.browserFails then
    (m, some "browser close failed")
  else if m.playwright.isSome ∧ f.playwrightFails then
    (m, some "playwright stop failed")
  else
    ({ m with context := none, browser := none, playwright := none,
              tabs := [], current_tab_id := none }, none)

/-- `BrowserManager.new_tab` (context.py 116–133): run `start`, require a
context, create a page, assign id `f"tab_{len(self.tabs) + 1}"`, register it
and make it current; then navigate if a URL was supplied (`gotoFails`
injects a navigation failure — the tab stays registered).  Returns
(new state, id of the tab created, raised exception). -/
def BrowserManager.new_tab (m : BrowserManager) (url : Option String)
    (gotoFails : Bool) : BrowserManager × Option String × Option String :=
  match m.start with
  | (m1, some e) => (m1, none, some e)
  | (m1, none) =>
      match m1.context with
      | none => (m1, none, some "Browser context not available")
      | some _ =>
          let tab_id := "tab_" ++ Nat.repr (m1.tabs.length + 1)
          let m2 := { m1 with tabs := dictInsertKey m1.tabs tab_id,
                              current_tab_id := some tab_id }
          (m2, some tab_id,
           if url.isSome && gotoFails then some "navigation failed" else none)

/-- `BrowserManager.close_tab` (context.py 135–142): if the id is a key,
close its page, delete the entry, and — when it was current — promote the
first remaining key in insertion order (`next(iter(self.tabs.keys()))`),
or clear the slot if none remain.  An absent id does nothing. -/
def BrowserManager.close_tab (m : BrowserManager) (tab_id : String) :
    BrowserManager :=
  if tab_id ∈ m.tabs then
    let tabs' := m.tabs.erase tab_id
    if m.current_tab_id = some tab_id then
      { m with tabs := tabs', current_tab_id := tabs'.head? }
    else
      { m with tabs := tabs' }
  else m

/-- `BrowserManager.switch_tab` (context.py 144–148): set current and bring
the page to the foreground if the id is a key; otherwise do nothing. -/
def BrowserManager.switch_tab (m : BrowserManager) (tab_id : String) :
    BrowserManager :=
  if tab_id ∈ m.tabs then { m with current_tab_id := some tab_id } else m

/-! ## Operation sequences over the tab set -/

/-- One tab-lifecycle operation issued against the session. -/
inductive TabOp where
  | newTab
  | closeTab (id : String)
  | switchTab (id : String)
deriving DecidableEq, Repr

/-- Apply one operation, also reporting the tab id it assigned (only
`newTab` assigns one).  `newTab` is issued without a URL, as by
`get_current_tab`/the tab tool with no `url` argument. -/
def applyOpTraced (m : BrowserManager) : TabOp → BrowserManager × List String
  | TabOp.newTab =>
      let r := m.new_tab none false
      (r.1, match r.2.1 with | some id => [id] | none => [])
  | TabOp.closeTab id => (m.close_tab id, [])
  | TabOp.switchTab id => (m.switch_tab id, [])

/-- Apply one operation, keeping only the state. -/
def applyOp (m : BrowserManager) (op : TabOp) : BrowserManager :=
  (applyOpTraced m op).1

/-- Run a sequence of operations from a given state. -/
def runOps (m : BrowserManager) (ops : List TabOp) : BrowserManager :=
  ops.foldl applyOp m

/-- Run a sequence of operations, collecting every tab id assigned by a
`newTab`, in order of assignment. -/
def runTraceAux (m : BrowserManager) : List TabOp → BrowserManager × List String
  | [] => (m, [])
  | op :: ops =>
      let r := applyOpTraced m op
      let rest := runTraceAux r.1 ops
      (rest.1, r.2 ++ rest.2)

/-- The identifiers assigned over an operation sequence. -/
def assignedIds (m : BrowserManager) (ops : List TabOp) : List String :=
  (runTraceAux m ops).2

/-- A fresh chromium session after one successful `start`. -/
def startedOnce : BrowserManager :=
  ((BrowserManager.init "chromium").start).1

/-- A live chromium session holding one open tab, as after `new_tab`. -/
def oneTabManager : BrowserManager :=
  ((BrowserManager.init "chromium").new_tab none false).1

/-- The session's current-tab pointer, if set, names a key of the tab
mapping (checked executably). -/
def currentValidB (m : BrowserManager) : Bool :=
  match m.current_tab_id with
  | none => true
  | some id => m.tabs.contains id

/-! ## Tiled capture (`CaptureTools._screenshot_pages`, capture.py 285–410)

The page is an external engine resource; its observable state here is the
vertical scroll offset, mutated by the `window.scrollTo(0, y)` evaluations
the handler issues.  Screenshot bytes are produced by a caller-supplied
function `shot scrollY clipW clipH`; a screenshot call that raises is
injected as `failAt = some i` (the capture of tile `i` fails).  All pixel
quantities are the non-negative integers the handler reads from the page. -/

/-- Python `f"{n:03d}"` for a positive tile number. -/
def pad3 (n : Nat) : String :=
  if n < 10 then "00" ++ Nat.repr n
  else if n < 100 then "0" ++ Nat.repr n
  else Nat.repr n

/-- Result of the tile loop: final scroll offset, files persisted (path and
bytes, in order), inline screenshots accumulated, and the exception raised
by a failing screenshot call, if any. -/
structure TileLoopOut where
  scrollY : Nat
  files : List String
  shots : List ContentItem
  err : Option String
deriving DecidableEq, Repr

/-- The `for page_num in range(num_pages)` body (capture.py 325–368),
processing tiles `i, i+1, ...` while `r` tiles remain, threading the page's
scroll offset.  Each iteration scrolls to `i * E`, captures the clip
`(viewW, min viewH (H - y))`, persists `"{prefix}_{i+1:03d}.{fmt}"` under
`folder`, and for `i < 3` also accumulates the image inline.  A failing
capture stops the loop with the files persisted so far. -/
def tilesLoop (E viewW viewH H : Nat) (folder pfx fmt : String)
    (shot : Nat → Nat → Nat → String) (failAt : Option Nat) :
    Nat → Nat → Nat → TileLoopOut
  | _, 0, s => { scrollY := s, files := [], shots := [], err := none }
  | i, r + 1, _s =>
      let scroll_y := i * E
      if failAt = some i then
        { scrollY := scroll_y, files := [], shots := [],
          err := some "screenshot failed" }
      else
        let clipH := min viewH (H - scroll_y)
        let bytes := shot scroll_y viewW clipH
        let fname := folder ++ "/" ++ pfx ++ "_" ++ pad3 (i + 1) ++ "." ++ fmt
        let rest := tilesLoop E viewW viewH H folder pfx fmt shot failAt
          (i + 1) r scroll_y
        { scrollY := rest.scrollY,
          files := fname :: rest.files,
          shots := (if i < 3 then
              [ContentItem.image bytes ("image/" ++ fmt)] else []) ++ rest.shots,
          err := rest.err }

/-- Outcome of one `_screenshot_pages` run: the computed tile count, the
files persisted on disk, the `ToolResult` content returned to the caller,
the page's final scroll offset, and the error flag. -/
structure PagesOutcome where
  numPages : Nat
  files : List String
  content : List ContentItem
  finalScroll : Nat
  isError : Bool
deriving DecidableEq, Repr

/-- The summary text built on success (capture.py 379–386). -/
def pagesSummary (folder : String) (numPages viewW viewH H : Nat)
    (files : List String) : String :=
  "📸 Page-by-page screenshots captured:\n" ++
  "📁 Folder: " ++ folder ++ "\n" ++
  "📑 Pages captured: " ++ Nat.repr numPages ++ "\n" ++
  "📐 Page size: " ++ Nat.repr viewW ++ "x" ++ Nat.repr viewH ++ "px\n" ++
  "📏 Total height: " ++ Nat.repr H ++ "px\n" ++
  "📄 Files saved:\n" ++
  files.foldl (fun acc f => acc ++ "  - " ++ f ++ "\n") ""

/-- `CaptureTools._screenshot_pages` with the engine reads already resolved:
`H` is `document.documentElement.scrollHeight`, `viewW` is
`window.innerWidth`, `scroll0` is the `window.pageYOffset` recorded as
`original_scroll`, and `T`, `O`, `maxP` are the `viewport_height`,
`overlap` and `max_pages` arguments.  Computes
`num_pages = min(max_pages, int((H + E - 1) / E))` with `E = T - O`,
scrolls to the top, runs the tile loop, and restores the original scroll
offset on the success path and on the exception path alike; a raised tile
error is converted by the outer handler into an error `ToolResult`. -/
def screenshot_pages (H viewW T O maxP : Nat) (folder pfx fmt : String)
    (shot : Nat → Nat → Nat → String) (failAt : Option Nat) (scroll0 : Nat) :
    PagesOutcome :=
  let E := T - O
  let num_pages := min maxP ((H + E - 1) / E)
  let original_scroll := scroll0
  let out := tilesLoop E viewW T H folder pfx fmt shot failAt 0 num_pages 0
  match out.err with
  | none =>
      let restored := original_scroll
      { numPages := num_pages,
        files := out.files,
        content :=
          ContentItem.text (pagesSummary folder num_pages viewW T H out.files)
            :: out.shots,
        finalScroll := restored,
        isError := false }
  | some e =>
      let restored := original_scroll
      { numPages := num_pages,
        files := out.files,
        content := [ContentItem.text ("❌ Page screenshots failed: " ++ e)],
        finalScroll := restored,
        isError := true }

/-- Number of inline binary image items in a content list. -/
def countImages : List ContentItem → Nat
  | [] => 0
  | ContentItem.image _ _ :: rest => countImages rest + 1
  | ContentItem.text _ :: rest => countImages rest

/-! ## Decimal rendering is injective

Tab ids are the strings `f"tab_{n}"`; reasoning about their distinctness
needs that `Nat.repr` (the rendering behind the f-string) is injective.
We prove it by relating `Nat.toDigitsCore` to a structural reference
rendering and evaluating that rendering back to the number. -/

/-- Reference decimal rendering, most-significant digit first. -/
def decDigits (n : Nat) : List Char :=
  if n < 10 then [Nat.digitChar n]
  else decDigits (n / 10) ++ [Nat.digitChar (n % 10)]
termination_by n
decreasing_by exact Nat.div_lt_self (by omega) (by omega)

/-- Numeric value of a decimal digit character. -/
def digitVal (c : Char) : Nat := c.toNat - 48

/-- Evaluate a digit string back to a number, most-significant first. -/
def decVal (ds : List Char) : Nat :=
  ds.foldl (fun a c => a * 10 + digitVal c) 0

/-- The tab id assigned for tab number `n`: Python `f"tab_{n}"`. -/
def tabName (n : Nat) : String := "tab_" ++ Nat.repr n

/-- The key list `["tab_1", …, "tab_k"]`. -/
def tabList (k : Nat) : List String :=
  (List.range k).map (fun i => tabName (i + 1))

/-! ## Supporting lemmas and claim theorems -/

/-- The instrumented dispatcher computes the same result as the plain one. -/
theorem execute_tool_traced_fst {α : Type} (tools : List (String × Handler α))
    (tool_name : String) (arguments : α) :
    (execute_tool_traced tools tool_name arguments).1 =
      execute_tool tools tool_name arguments := by
  unfold execute_tool_traced execute_tool
  cases tools.lookup tool_name with
  | none => rfl
  | some exec => cases exec arguments <;> rfl

theorem digitVal_digitChar (d : Nat) (h : d < 10) :
    digitVal (Nat.digitChar d) = d := by
  interval_cases d <;> rfl

theorem decVal_append_digit (xs : List Char) (c : Char) :
    decVal (xs ++ [c]) = decVal xs * 10 + digitVal c := by
  simp [decVal, List.foldl_append]

theorem decVal_decDigits (n : Nat) : decVal (decDigits n) = n := by
  induction n using Nat.strong_induction_on with
  | _ n ih =>
    by_cases h : n < 10
    · rw [decDigits, if_pos h]
      simpa [decVal] using digitVal_digitChar n h
    · rw [decDigits, if_neg h, decVal_append_digit,
        ih (n / 10) (Nat.div_lt_self (by omega) (by omega)),
        digitVal_digitChar (n % 10) (Nat.mod_lt n (by omega))]
      omega

theorem toDigitsCore_eq_decDigits :
    ∀ (fuel n : Nat) (l : List Char), n < fuel →
      Nat.toDigitsCore 10 fuel n l = decDigits n ++ l := by
  intro fuel
  induction fuel with
  | zero => intro n l h; omega
  | succ f ih =>
      intro n l h
      by_cases h10 : n < 10
      · have hdiv : n / 10 = 0 := Nat.div_eq_of_lt h10
        have hmod : n % 10 = n := Nat.mod_eq_of_lt h10
        rw [Nat.toDigitsCore]
        simp only [hdiv, hmod, if_pos rfl]
        rw [decDigits, if_pos h10]
        rfl
      · have hpos : n / 10 ≠ 0 := by
          have : 0 < n / 10 := Nat.div_pos (Nat.le_of_not_lt h10) (by omega)
          omega
        have hlt : n / 10 < f := by
          have h1 : n / 10 < n := Nat.div_lt_self (by omega) (by omega)
          omega
        rw [Nat.toDigitsCore]
        simp only [if_neg hpos]
        rw [ih (n / 10) (Nat.digitChar (n % 10) :: l) hlt]
        conv_rhs => rw [decDigits]
        rw [if_neg h10]
        simp [List.append_assoc]

theorem nat_repr_eq_decDigits (n : Nat) :
    Nat.repr n = (decDigits n).asString := by
  show (Nat.toDigits 10 n).asString = _
  rw [Nat.toDigits, toDigitsCore_eq_decDigits (n + 1) n [] (Nat.lt_succ_self n),
    List.append_nil]

theorem nat_repr_injective : Function.Injective Nat.repr := by
  intro a b h
  rw [nat_repr_eq_decDigits, nat_repr_eq_decDigits] at h
  have h2 : decDigits a = decDigits b := by
    have h3 := congrArg String.data h
    simpa [List.asString] using h3
  have h4 := congrArg decVal h2
  simpa [decVal_decDigits] using h4

theorem tabName_injective : Function.Injective tabName := by
  intro a b h
  apply nat_repr_injective
  have h1 := congrArg String.data h
  simp only [tabName, String.data_append] at h1
  exact String.ext (List.append_cancel_left h1)

/-! ## Claim theorems -/

/-- C1: for every registered tool name and every argument payload, a handler
that raises is caught at the dispatcher: `execute_tool` returns an error
result whose single text item is `"Error executing <name>: <message>"`, and
the handler was invoked exactly once (no retries; no exception escapes —
the dispatcher is a total function into `ToolResult`). -/
theorem execute_tool_handler_fault_caught {α : Type}
    (tools : List (String × Handler α)) (tool_name : String) (arguments : α)
    (exec : Handler α) (e : String)
    (hfound : tools.lookup tool_name = some exec)
    (hraise : exec arguments = Except.error e) :
    execute_tool_traced tools tool_name arguments =
      ({ content := [ContentItem.text ("Error executing " ++ tool_name ++ ": " ++ e)],
         isError := true }, 1) := by
  unfold execute_tool_traced
  rw [hfound]
  dsimp only
  rw [hraise]

/-- Witness for C1 at a concrete registry, name and payload. -/
theorem execute_tool_handler_fault_caught_witness :
    execute_tool_traced demoFailRegistry "browser_navigate" 7 =
      ({ content := [ContentItem.text
            "Error executing browser_navigate: net::ERR_ABORTED"],
         isError := true }, 1) :=
  execute_tool_handler_fault_caught demoFailRegistry "browser_navigate" 7
    (fun _ => Except.error "net::ERR_ABORTED") "net::ERR_ABORTED" rfl rfl

/-- C2: for every operation name absent from the registry and every
payload, `execute_tool` returns an error-flagged result with a single text
item containing the requested name and the words "not found"; the handler
path is not reached (invocation count 0) and nothing is raised. -/
theorem execute_tool_unknown_name {α : Type}
    (tools : List (String × Handler α)) (tool_name : String) (arguments : α)
    (habsent : tools.lookup tool_name = none) :
    execute_tool_traced tools tool_name arguments =
      ({ content := [ContentItem.text ("Tool '" ++ tool_name ++ "' not found")],
         isError := true }, 0)
    ∧ List.IsInfix tool_name.data
        ("Tool '" ++ tool_name ++ "' not found").data
    ∧ List.IsInfix "not found".data
        ("Tool '" ++ tool_name ++ "' not found").data := by
  refine ⟨?_, ?_, ?_⟩
  · unfold execute_tool_traced
    rw [habsent]
  · exact ⟨"Tool '".data, "' not found".data, by
      simp [String.data_append]⟩
  · refine ⟨("Tool '" ++ tool_name ++ "' ").data, [], ?_⟩
    simp [String.data_append]

/-- `start` never touches the tab mapping or the current-tab pointer
(on the success path and the unsupported-engine path alike). -/
theorem start_tabs_current (m : BrowserManager) :
    (m.start).1.tabs = m.tabs ∧
    (m.start).1.current_tab_id = m.current_tab_id := by
  unfold BrowserManager.start
  dsimp only
  split <;> split <;> simp

/-- The inserted key is always a key of the updated mapping. -/
theorem mem_dictInsertKey_self (keys : List String) (k : String) :
    k ∈ dictInsertKey keys k := by
  unfold dictInsertKey
  split
  · assumption
  · simp

/-- `new_tab` either leaves tabs and current pointer unchanged (engine
start failed / no context) or makes current a freshly registered key. -/
theorem new_tab_current_cases (m : BrowserManager) (url : Option String)
    (g : Bool) :
    ((m.new_tab url g).1.tabs = m.tabs ∧
      (m.new_tab url g).1.current_tab_id = m.current_tab_id) ∨
    (∃ id, (m.new_tab url g).1.current_tab_id = some id ∧
      id ∈ (m.new_tab url g).1.tabs) := by
  unfold BrowserManager.new_tab
  rcases hs : m.start with ⟨m1, e⟩
  have hst := start_tabs_current m
  rw [hs] at hst
  cases e with
  | some err =>
      dsimp only
      exact Or.inl ⟨hst.1, hst.2⟩
  | none =>
      dsimp only
      cases hc : m1.context with
      | none =>
          dsimp only
          exact Or.inl ⟨hst.1, hst.2⟩
      | some c =>
          dsimp only
          exact Or.inr ⟨"tab_" ++ Nat.repr (m1.tabs.length + 1), rfl,
            mem_dictInsertKey_self _ _⟩

/-- Each tab operation preserves validity of the current-tab pointer. -/
theorem applyOp_preserves_currentValid (m : BrowserManager) (op : TabOp)
    (h : currentValidB m = true) : currentValidB (applyOp m op) = true := by
  cases op with
  | newTab =>
      show currentValidB (m.new_tab none false).1 = true
      rcases new_tab_current_cases m none false with ⟨ht, hc⟩ | ⟨id, hc, hm⟩
      · unfold currentValidB at h ⊢
        rw [ht, hc]
        exact h
      · unfold currentValidB
        rw [hc]
        simpa using hm
  | closeTab id =>
      show currentValidB (m.close_tab id) = true
      unfold BrowserManager.close_tab
      split
      · split
        · rename_i hmem hcur
          unfold currentValidB
          dsimp only
          cases hh : (m.tabs.erase id).head? with
          | none => rfl
          | some h2 => simpa using List.mem_of_mem_head? (by rw [hh]; rfl)
        · rename_i hmem hcur
          unfold currentValidB at h ⊢
          dsimp only
          cases hcid : m.current_tab_id with
          | none => rfl
          | some cid =>
              rw [hcid] at h hcur
              have hne : cid ≠ id := fun he => hcur (by rw [he])
              have hcm : cid ∈ m.tabs := by simpa using h
              simpa using (List.mem_erase_of_ne hne).mpr hcm
      · exact h
  | switchTab id =>
      show currentValidB (m.switch_tab id) = true
      unfold BrowserManager.switch_tab
      split
      · rename_i hmem
        unfold currentValidB
        simpa using hmem
      · exact h

/-- Validity of the current-tab pointer is preserved by any sequence. -/
theorem runOps_preserves_currentValid (m : BrowserManager) (ops : List TabOp)
    (h : currentValidB m = true) : currentValidB (runOps m ops) = true := by
  induction ops generalizing m with
  | nil => exact h
  | cons op ops ih =>
      exact ih (applyOp m op) (applyOp_preserves_currentValid m op h)

/-- C3: for every sequence of `new_tab` / `close_tab` / `switch_tab`
operations starting from a fresh session (any configured engine), whenever
`current_tab_id` is set it is a key of the tab mapping. -/
theorem current_tab_always_registered (browser_type : String)
    (ops : List TabOp) :
    currentValidB (runOps (BrowserManager.init browser_type) ops) = true :=
  runOps_preserves_currentValid (BrowserManager.init browser_type) ops rfl

/-- C4 (code bug): `start` is not idempotent.  From a fresh chromium
session, the first `start` launches driver 0, browser 1, context 2; a
second `start` succeeds again but launches a new browser (instance 3) and
creates a new context (instance 4) instead of leaving the session
unchanged — only the driver is guarded by `if self.playwright is None`.
Evaluates the model at the failing input. -/
theorem start_not_idempotent :
    (((BrowserManager.init "chromium").start).2 = none ∧
      ((BrowserManager.init "chromium").start).1.browser = some 1 ∧
      ((BrowserManager.init "chromium").start).1.context = some 2) ∧
    ((startedOnce.start).2 = none ∧
      (startedOnce.start).1.browser = some 3 ∧
      (startedOnce.start).1.context = some 4 ∧
      (startedOnce.start).1 ≠ startedOnce) := by
  decide

/-- Tab-mapping component of `close_tab`. -/
theorem close_tab_tabs (m : BrowserManager) (tab_id : String) :
    (m.close_tab tab_id).tabs =
      if tab_id ∈ m.tabs then m.tabs.erase tab_id else m.tabs := by
  unfold BrowserManager.close_tab
  split
  · split <;> rename_i hmem _ <;> simp [hmem]
  · rename_i hmem
    simp [hmem]

/-- `close_tab` of an id that is not a key leaves the state untouched. -/
theorem close_tab_of_not_mem (m : BrowserManager) (tab_id : String)
    (h : tab_id ∉ m.tabs) : m.close_tab tab_id = m := by
  unfold BrowserManager.close_tab
  rw [if_neg h]

/-- C6: `close_tab` of an id absent from the tab mapping is a pure no-op
(state unchanged, nothing raised — the absent branch executes no code),
and in particular — for the duplicate-free mappings the manager actually
builds — closing the same id twice in a row is a no-op the second time. -/
theorem close_tab_absent_noop (m : BrowserManager) (tab_id : String) :
    (tab_id ∉ m.tabs → m.close_tab tab_id = m) ∧
    (m.tabs.Nodup →
      (m.close_tab tab_id).close_tab tab_id = m.close_tab tab_id) := by
  constructor
  · exact close_tab_of_not_mem m tab_id
  · intro hnd
    by_cases hmem : tab_id ∈ m.tabs
    · apply close_tab_of_not_mem
      rw [close_tab_tabs, if_pos hmem]
      exact hnd.not_mem_erase
    · rw [close_tab_of_not_mem m tab_id hmem]
      exact close_tab_of_not_mem m tab_id hmem

/-- Witness for C6 at a session holding one tab. -/
theorem close_tab_absent_noop_witness :
    (oneTabManager.close_tab "tab_9" = oneTabManager) ∧
    ((oneTabManager.close_tab "tab_1").close_tab "tab_1" =
      oneTabManager.close_tab "tab_1") :=
  ⟨(close_tab_absent_noop oneTabManager "tab_9").1 (by decide),
   (close_tab_absent_noop oneTabManager "tab_1").2 (by decide)⟩

/-- C7 counterexample: `stop` is not best-effort.  At a live session whose
context close fails, the exception propagates: the browser and driver are
never closed and the tab map and current pointer are left populated, not
cleared — refuting "a failure in one step does not prevent the subsequent
steps" and "afterwards the tabs mapping and current_tab_id are always
cleared". -/
theorem stop_not_best_effort :
    (oneTabManager.stop { contextFails := true }).2.isSome = true ∧
    (oneTabManager.stop { contextFails := true }).1.tabs = ["tab_1"] ∧
    (oneTabManager.stop { contextFails := true }).1.current_tab_id =
      some "tab_1" ∧
    (oneTabManager.stop { contextFails := true }).1.browser = some 1 ∧
    (oneTabManager.stop { contextFails := true }).1.playwright = some 0 := by
  decide

/-- C7 as amended: `stop` closes context, then browser, then driver and
then clears all tracking — but the steps are sequential, not best-effort:
when teardown completes without a failure the whole state is reset, and a
failing step propagates its exception immediately, leaving the session
state (including the tab map and current pointer) untouched and the
remaining steps unattempted. -/
theorem stop_clears_or_propagates (m : BrowserManager) (f : StopFailures) :
    ((m.stop f).2 = none →
      (m.stop f).1 = { m with context := none, browser := none,
                              playwright := none, tabs := [],
                              current_tab_id := none }) ∧
    (∀ e, (m.stop f).2 = some e → (m.stop f).1 = m) := by
  unfold BrowserManager.stop
  split
  · exact ⟨fun h => by simp at h, fun e _ => rfl⟩
  · split
    · exact ⟨fun h => by simp at h, fun e _ => rfl⟩
    · split
      · exact ⟨fun h => by simp at h, fun e _ => rfl⟩
      · exact ⟨fun _ => rfl, fun e h => by simp at h⟩

/-- Witness for C7's amended theorem: both arms at concrete sessions. -/
theorem stop_clears_or_propagates_witness :
    (oneTabManager.stop {}).1 =
      { oneTabManager with context := none, browser := none,
                           playwright := none, tabs := [],
                           current_tab_id := none } ∧
    (oneTabManager.stop { contextFails := true }).1 = oneTabManager :=
  ⟨(stop_clears_or_propagates oneTabManager {}).1 (by decide),
   (stop_clears_or_propagates oneTabManager { contextFails := true }).2
     "context close failed" (by decide)⟩

/-- C5 counterexample: tab identifiers are computed as
`f"tab_{len(self.tabs) + 1}"`, so after a close the count shrinks and an
earlier identifier is assigned again.  From a fresh session, the run
new / new / close "tab_1" / new assigns "tab_1", "tab_2", "tab_2": the
third assignment reuses "tab_2" (and even collides with the still-open
tab of that name) — refuting "monotonically assigned, never reused". -/
theorem tab_ids_reused_after_close :
    assignedIds (BrowserManager.init "chromium")
        [TabOp.newTab, TabOp.newTab, TabOp.closeTab "tab_1", TabOp.newTab] =
      ["tab_1", "tab_2", "tab_2"] ∧
    ¬ (assignedIds (BrowserManager.init "chromium")
        [TabOp.newTab, TabOp.newTab, TabOp.closeTab "tab_1",
         TabOp.newTab]).Nodup := by
  decide

theorem tabList_length (k : Nat) : (tabList k).length = k := by
  simp [tabList]

theorem tabName_succ_not_mem (k : Nat) : tabName (k + 1) ∉ tabList k := by
  intro h
  rcases List.mem_map.mp h with ⟨i, hi, he⟩
  have := tabName_injective he
  have := List.mem_range.mp hi
  omega

theorem tabList_succ (k : Nat) :
    tabList (k + 1) = tabList k ++ [tabName (k + 1)] := by
  simp [tabList, List.range_succ]

/-- For a supported engine selection, `start` succeeds and leaves the tab
bookkeeping and configuration untouched, with a context in place. -/
theorem start_chromium (m : BrowserManager) (hbt : m.browser_type = "chromium") :
    (m.start).2 = none ∧ (m.start).1.tabs = m.tabs ∧
    (m.start).1.browser_type = m.browser_type ∧
    (m.start).1.context.isSome = true := by
  unfold BrowserManager.start
  dsimp only
  split <;> simp [hbt]

/-- `new_tab` from a session whose keys are `tab_1 … tab_k`: the assigned
id is `tab_{k+1}`, which is appended as a genuinely new key. -/
theorem new_tab_from_tabList (m : BrowserManager) (k : Nat)
    (hbt : m.browser_type = "chromium") (htabs : m.tabs = tabList k) :
    (m.new_tab none false).1.tabs = tabList (k + 1) ∧
    (m.new_tab none false).2.1 = some (tabName (k + 1)) ∧
    (m.new_tab none false).1.browser_type = "chromium" := by
  have hst := start_chromium m hbt
  unfold BrowserManager.new_tab
  rcases hs : m.start with ⟨m1, e⟩
  rw [hs] at hst
  obtain ⟨he, ht1, hbt1, hctx⟩ := hst
  dsimp only at he ht1 hbt1 hctx
  subst he
  dsimp only
  rcases hc : m1.context with _ | c
  · rw [hc] at hctx
    simp at hctx
  · dsimp only
    have hlen : m1.tabs.length = k := by rw [ht1, htabs, tabList_length]
    have hid : "tab_" ++ Nat.repr (m1.tabs.length + 1) = tabName (k + 1) := by
      rw [hlen]; rfl
    refine ⟨?_, ?_, ?_⟩
    · show dictInsertKey m1.tabs ("tab_" ++ Nat.repr (m1.tabs.length + 1)) =
        tabList (k + 1)
      rw [hid, ht1, htabs]
      unfold dictInsertKey
      rw [if_neg (tabName_succ_not_mem k), tabList_succ]
    · show some ("tab_" ++ Nat.repr (m1.tabs.length + 1)) = some (tabName (k + 1))
      rw [hid]
    · show m1.browser_type = "chromium"
      rw [hbt1, hbt]

/-- The ids assigned by a run of `n` consecutive `new_tab` operations from
a session whose keys are `tab_1 … tab_k` are `tab_{k+1} … tab_{k+n}`. -/
theorem replicate_newTab_trace (n : Nat) :
    ∀ (k : Nat) (m : BrowserManager), m.browser_type = "chromium" →
      m.tabs = tabList k →
      (runTraceAux m (List.replicate n TabOp.newTab)).2 =
        (List.range n).map (fun j => tabName (k + 1 + j)) := by
  induction n with
  | zero => intro k m _ _; simp [runTraceAux]
  | succ n ih =>
      intro k m hbt htabs
      obtain ⟨ht, hid, hbt'⟩ := new_tab_from_tabList m k hbt htabs
      rw [List.replicate_succ]
      unfold runTraceAux applyOpTraced
      dsimp only
      rw [hid]
      dsimp only
      rw [ih (k + 1) (m.new_tab none false).1 hbt' ht]
      rw [List.range_succ_eq_map]
      simp only [List.map_cons, List.map_map, Function.comp]
      have harith : ∀ j : Nat, tabName (k + 1 + (j + 1)) = tabName (k + 1 + 1 + j) :=
        fun j => by rw [show k + 1 + (j + 1) = k + 1 + 1 + j by omega]
      simp [harith]

/-- C5 as amended: identifiers are `tab_{n+1}` with `n` the current number
of open tabs, so within any close-free run every assigned identifier is
fresh and all are pairwise distinct; after a `close_tab`, an identifier
can be assigned again (see the counterexample). -/
theorem newtab_ids_distinct_without_close (n : Nat) :
    assignedIds (BrowserManager.init "chromium")
        (List.replicate n TabOp.newTab) =
      (List.range n).map (fun j => tabName (1 + j)) ∧
    (assignedIds (BrowserManager.init "chromium")
        (List.replicate n TabOp.newTab)).Nodup := by
  have h := replicate_newTab_trace n 0 (BrowserManager.init "chromium") rfl rfl
  have h' : assignedIds (BrowserManager.init "chromium")
      (List.replicate n TabOp.newTab) =
      (List.range n).map (fun j => tabName (1 + j)) := by
    rw [assignedIds, h]
  refine ⟨h', ?_⟩
  rw [h']
  refine List.Nodup.map ?_ (List.nodup_range n)
  intro a b hab
  have := tabName_injective hab
  omega

/-- A failure-free tile loop raises nothing and persists one file per
iteration. -/
theorem tilesLoop_noFail (E viewW viewH H : Nat) (folder pfx fmt : String)
    (shot : Nat → Nat → Nat → String) :
    ∀ (r i s : Nat),
      (tilesLoop E viewW viewH H folder pfx fmt shot none i r s).err = none ∧
      (tilesLoop E viewW viewH H folder pfx fmt shot none i r s).files.length
        = r := by
  intro r
  induction r with
  | zero => intro i s; exact ⟨rfl, rfl⟩
  | succ r ih =>
      intro i s
      unfold tilesLoop
      rw [if_neg (by simp : ¬ (none : Option Nat) = some i)]
      dsimp only
      exact ⟨(ih (i + 1) (i * E)).1, by
        rw [List.length_cons, (ih (i + 1) (i * E)).2]⟩

theorem countImages_append (a b : List ContentItem) :
    countImages (a ++ b) = countImages a + countImages b := by
  induction a with
  | nil => simp [countImages]
  | cons x rest ih => cases x <;> simp [countImages, ih] <;> omega

/-- Only the first three tile indices contribute an inline image. -/
theorem tilesLoop_shots_le (E viewW viewH H : Nat) (folder pfx fmt : String)
    (shot : Nat → Nat → Nat → String) (failAt : Option Nat) :
    ∀ (r i s : Nat),
      countImages
        (tilesLoop E viewW viewH H folder pfx fmt shot failAt i r s).shots
        ≤ 3 - i := by
  intro r
  induction r with
  | zero => intro i s; simp [tilesLoop, countImages]
  | succ r ih =>
      intro i s
      unfold tilesLoop
      split
      · simp [countImages]
      · dsimp only
        rw [countImages_append]
        have hr := ih (i + 1) (i * E)
        by_cases h3 : i < 3
        · rw [if_pos h3]
          simp only [countImages]
          omega
        · rw [if_neg h3]
          simp only [countImages]
          omega

/-- C8: under `T > O > 0` the computed tile count is
`min maxTiles ⌈H / (T − O)⌉` (the source computes it as
`int((H + E - 1) / E)` with `E = T − O`), and a failure-free run captures
exactly that many tiles (one persisted file per tile). -/
theorem screenshot_pages_tile_count (H viewW T O maxP : Nat)
    (folder pfx fmt : String) (shot : Nat → Nat → Nat → String)
    (failAt : Option Nat) (scroll0 : Nat) (_hO : 0 < O) (_hTO : O < T) :
    (screenshot_pages H viewW T O maxP folder pfx fmt shot failAt
        scroll0).numPages = min maxP (H ⌈/⌉ (T - O)) ∧
    (failAt = none →
      (screenshot_pages H viewW T O maxP folder pfx fmt shot failAt
          scroll0).files.length =
        (screenshot_pages H viewW T O maxP folder pfx fmt shot failAt
          scroll0).numPages) := by
  constructor
  · unfold screenshot_pages
    dsimp only
    split <;> (dsimp only; rw [Nat.ceilDiv_eq_add_pred_div])
  · intro hf
    subst hf
    have h := tilesLoop_noFail (T - O) viewW T H folder pfx fmt shot
      (min maxP ((H + (T - O) - 1) / (T - O))) 0 0
    unfold screenshot_pages
    dsimp only
    rw [h.1]
    dsimp only
    exact h.2

/-- Witness for C8 on a 2000px page with 800px tiles and 50px overlap:
`ceil(2000 / 750) = 3` tiles, 3 files. -/
theorem screenshot_pages_tile_count_witness :
    (0 < 50 ∧ 50 < 800) ∧
    (screenshot_pages 2000 1280 800 50 20 "screenshots" "page" "png"
        (fun _ _ _ => "bytes") none 0).numPages =
      min 20 (2000 ⌈/⌉ (800 - 50)) ∧
    (screenshot_pages 2000 1280 800 50 20 "screenshots" "page" "png"
        (fun _ _ _ => "bytes") none 0).files.length =
      (screenshot_pages 2000 1280 800 50 20 "screenshots" "page" "png"
        (fun _ _ _ => "bytes") none 0).numPages :=
  ⟨⟨by decide, by decide⟩,
   (screenshot_pages_tile_count 2000 1280 800 50 20 "screenshots" "page"
      "png" (fun _ _ _ => "bytes") none 0 (by decide) (by decide)).1,
   (screenshot_pages_tile_count 2000 1280 800 50 20 "screenshots" "page"
      "png" (fun _ _ _ => "bytes") none 0 (by decide) (by decide)).2 rfl⟩

/-- C9: whatever the computed tile count (and even when a tile capture
fails), the returned content holds at most 3 inline binary image items,
while a completed run persists exactly one file per computed tile. -/
theorem screenshot_pages_inline_bounded (H viewW T O maxP : Nat)
    (folder pfx fmt : String) (shot : Nat → Nat → Nat → String)
    (failAt : Option Nat) (scroll0 : Nat) :
    countImages
      (screenshot_pages H viewW T O maxP folder pfx fmt shot failAt
        scroll0).content ≤ 3 ∧
    (failAt = none →
      (screenshot_pages H viewW T O maxP folder pfx fmt shot failAt
          scroll0).files.length =
        (screenshot_pages H viewW T O maxP folder pfx fmt shot failAt
          scroll0).numPages) := by
  constructor
  · have hb := tilesLoop_shots_le (T - O) viewW T H folder pfx fmt shot
      failAt (min maxP ((H + (T - O) - 1) / (T - O))) 0 0
    unfold screenshot_pages
    dsimp only
    split
    · dsimp only
      simpa only [countImages] using hb
    · dsimp only
      simp [countImages]
  · intro hf
    subst hf
    have h := tilesLoop_noFail (T - O) viewW T H folder pfx fmt shot
      (min maxP ((H + (T - O) - 1) / (T - O))) 0 0
    unfold screenshot_pages
    dsimp only
    rw [h.1]
    dsimp only
    exact h.2

/-- Witness for C9 on a run computing 3 tiles. -/
theorem screenshot_pages_inline_bounded_witness :
    countImages
      (screenshot_pages 2000 1280 800 50 20 "shots" "page" "jpeg"
        (fun _ _ _ => "bytes") none 40).content ≤ 3 ∧
    (screenshot_pages 2000 1280 800 50 20 "shots" "page" "jpeg"
        (fun _ _ _ => "bytes") none 40).files.length =
      (screenshot_pages 2000 1280 800 50 20 "shots" "page" "jpeg"
        (fun _ _ _ => "bytes") none 40).numPages :=
  ⟨(screenshot_pages_inline_bounded 2000 1280 800 50 20 "shots" "page"
      "jpeg" (fun _ _ _ => "bytes") none 40).1,
   (screenshot_pages_inline_bounded 2000 1280 800 50 20 "shots" "page"
      "jpeg" (fun _ _ _ => "bytes") none 40).2 rfl⟩

/-- C10: whether the tile loop completes or a tile capture raises, the
page's vertical scroll offset after `_screenshot_pages` equals the
`window.pageYOffset` recorded before it began (the restore runs on the
success path and on the exception path alike). -/
theorem screenshot_pages_restores_scroll (H viewW T O maxP : Nat)
    (folder pfx fmt : String) (shot : Nat → Nat → Nat → String)
    (failAt : Option Nat) (scroll0 : Nat) :
    (screenshot_pages H viewW T O maxP folder pfx fmt shot failAt
      scroll0).finalScroll = scroll0 := by
  unfold screenshot_pages
  dsimp only
  split <;> rfl

/-- Witness for C2: the empty registry does not contain "browser_warp". -/
theorem execute_tool_unknown_name_witness :
    execute_tool_traced ([] : List (String × Handler Nat)) "browser_warp" 0 =
      ({ content := [ContentItem.text "Tool 'browser_warp' not found"],
         isError := true }, 0)
    ∧ List.IsInfix "browser_warp".data
        ("Tool '" ++ "browser_warp" ++ "' not found").data
    ∧ List.IsInfix "not found".data
        ("Tool '" ++ "browser_warp" ++ "' not found").data :=
  execute_tool_unknown_name [] "browser_warp" 0 rfl

end PlaywrightMcp
